import Mathlib

/-!
Shallow embedding of `crates/kreuzberg-ffi/src/error.rs`: the `ErrorCode`
enum (`#[repr(u32)]`, discriminants 0..7), its methods `name`, `description`,
`from_code`, `is_valid`, and the exported FFI functions
`kreuzberg_error_code_*`. Machine `u32` values are modelled as `Nat` with the
bound `n < 2^32` stated explicitly where a claim ranges over all `u32`.
-/

namespace Kreuzberg

/-- `pub enum ErrorCode` from `error.rs`, variants in source order. -/
inductive ErrorCode where
  | Validation
  | Parsing
  | Ocr
  | MissingDependency
  | Io
  | Plugin
  | UnsupportedFormat
  | Internal
  deriving DecidableEq, Fintype, Repr

/-- The `#[repr(u32)]` discriminant of each variant, i.e. the value of the
Rust cast `code as u32` (source assigns `Validation = 0`, ..., `Internal = 7`). -/
def ErrorCode.toU32 : ErrorCode → Nat
  | .Validation => 0
  | .Parsing => 1
  | .Ocr => 2
  | .MissingDependency => 3
  | .Io => 4
  | .Plugin => 5
  | .UnsupportedFormat => 6
  | .Internal => 7

/-- `ErrorCode::name` (error.rs lines 124-135). -/
def ErrorCode.name : ErrorCode → String
  | .Validation => "validation"
  | .Parsing => "parsing"
  | .Ocr => "ocr"
  | .MissingDependency => "missing_dependency"
  | .Io => "io"
  | .Plugin => "plugin"
  | .UnsupportedFormat => "unsupported_format"
  | .Internal => "internal"

/-- `ErrorCode::description` (error.rs lines 141-152). -/
def ErrorCode.description : ErrorCode → String
  | .Validation => "Input validation error"
  | .Parsing => "Document parsing error"
  | .Ocr => "OCR processing error"
  | .MissingDependency => "Missing system dependency"
  | .Io => "File system I/O error"
  | .Plugin => "Plugin error"
  | .UnsupportedFormat => "Unsupported format"
  | .Internal => "Internal library error"

/-- `ErrorCode::from_code` (error.rs lines 166-178): match on the numeric
code, `None` on the wildcard arm. -/
def ErrorCode.from_code : Nat → Option ErrorCode
  | 0 => some .Validation
  | 1 => some .Parsing
  | 2 => some .Ocr
  | 3 => some .MissingDependency
  | 4 => some .Io
  | 5 => some .Plugin
  | 6 => some .UnsupportedFormat
  | 7 => some .Internal
  | _ => none

/-- `ErrorCode::is_valid` (error.rs lines 190-192): `code <= 7`. -/
def ErrorCode.is_valid (code : Nat) : Bool :=
  code ≤ 7

/-- `kreuzberg_error_code_validation()` (error.rs line 206). -/
def kreuzberg_error_code_validation : Nat := ErrorCode.Validation.toU32

/-- `kreuzberg_error_code_parsing()` (error.rs line 218). -/
def kreuzberg_error_code_parsing : Nat := ErrorCode.Parsing.toU32

/-- `kreuzberg_error_code_ocr()` (error.rs line 230). -/
def kreuzberg_error_code_ocr : Nat := ErrorCode.Ocr.toU32

/-- `kreuzberg_error_code_missing_dependency()` (error.rs line 242). -/
def kreuzberg_error_code_missing_dependency : Nat :=
  ErrorCode.MissingDependency.toU32

/-- `kreuzberg_error_code_io()` (error.rs line 254). -/
def kreuzberg_error_code_io : Nat := ErrorCode.Io.toU32

/-- `kreuzberg_error_code_plugin()` (error.rs line 266). -/
def kreuzberg_error_code_plugin : Nat := ErrorCode.Plugin.toU32

/-- `kreuzberg_error_code_unsupported_format()` (error.rs line 278). -/
def kreuzberg_error_code_unsupported_format : Nat :=
  ErrorCode.UnsupportedFormat.toU32

/-- `kreuzberg_error_code_internal()` (error.rs line 290). -/
def kreuzberg_error_code_internal : Nat := ErrorCode.Internal.toU32

/-- `kreuzberg_error_code_count()` (error.rs lines 304-306): literal `8`. -/
def kreuzberg_error_code_count : Nat := 8

/-- `kreuzberg_error_code_name` (error.rs lines 334-347). The Rust function
returns `name.as_ptr()` / `"unknown".as_ptr()`, a pointer to the UTF-8 bytes
of the chosen `&'static str`; this embedding returns that string (the exact
text the returned pointer addresses). -/
def kreuzberg_error_code_name (code : Nat) : String :=
  match ErrorCode.from_code code with
  | some err_code => err_code.name
  | none => "unknown"

/-- `kreuzberg_error_code_description` (error.rs lines 368-380). As with
`kreuzberg_error_code_name`, the embedding returns the string whose bytes the
returned `*const c_char` points at. -/
def kreuzberg_error_code_description (code : Nat) : String :=
  match ErrorCode.from_code code with
  | some err_code => err_code.description
  | none => "Unknown error code"

/-- The eight variants in declaration order. -/
def allVariants : List ErrorCode :=
  [.Validation, .Parsing, .Ocr, .MissingDependency,
   .Io, .Plugin, .UnsupportedFormat, .Internal]

/-- A string, viewed as the byte/character content a C caller would read
starting at its first byte, ends with a NUL terminator. Rust string literals
(`&'static str`) consist of exactly their UTF-8 bytes; a literal that does not
textually contain `\0` has no such terminator. -/
def endsWithNul (s : String) : Bool :=
  s.data.getLast? == some (Char.ofNat 0)

/-- A string contains a NUL byte somewhere. -/
def containsNul (s : String) : Bool :=
  s.data.contains (Char.ofNat 0)

-- Helper: the wildcard arm of `from_code` on every code ≥ 8.
theorem from_code_ge8 (m : Nat) : ErrorCode.from_code (m + 8) = none := rfl

theorem is_valid_iff (n : Nat) : ErrorCode.is_valid n = true ↔ n ≤ 7 := by
  simp [ErrorCode.is_valid]

/-- C1: for every n in [0,7], `ErrorCode::from_code(n)` returns `Some` of a
variant whose `u32` discriminant is n; in particular `from_code(2)` is `Ocr`. -/
theorem C1_from_code_present_roundtrip (n : Nat) (h : n ≤ 7) :
    (∃ e : ErrorCode, ErrorCode.from_code n = some e ∧ e.toU32 = n) ∧
    ErrorCode.from_code 2 = some ErrorCode.Ocr := by
  interval_cases n <;> exact ⟨⟨_, rfl, rfl⟩, rfl⟩

/-- Witness for C1 at n = 2. -/
theorem C1_witness :
    2 ≤ 7 ∧
    ((∃ e : ErrorCode, ErrorCode.from_code 2 = some e ∧ e.toU32 = 2) ∧
      ErrorCode.from_code 2 = some ErrorCode.Ocr) :=
  ⟨by decide, C1_from_code_present_roundtrip 2 (by decide)⟩

/-- C2: for every u32 value n, `is_valid(n)` holds iff n ≤ 7, and for every
n outside [0,7] `from_code(n)` returns `None` (the functions are total, so no
panic is modelled or possible). -/
theorem C2_is_valid_range_and_from_code_none (n : Nat) (h : n < 2 ^ 32) :
    (ErrorCode.is_valid n = true ↔ n ≤ 7) ∧
    (¬ n ≤ 7 → ErrorCode.from_code n = none) := by
  refine ⟨is_valid_iff n, fun h7 => ?_⟩
  obtain ⟨m, rfl⟩ : ∃ m, n = m + 8 := ⟨n - 8, by omega⟩
  exact from_code_ge8 m

/-- Witness for C2 at n = u32::MAX = 4294967295. -/
theorem C2_witness :
    4294967295 < 2 ^ 32 ∧
    ((ErrorCode.is_valid 4294967295 = true ↔ 4294967295 ≤ 7) ∧
      (¬ 4294967295 ≤ 7 → ErrorCode.from_code 4294967295 = none)) :=
  ⟨by norm_num, C2_is_valid_range_and_from_code_none 4294967295 (by norm_num)⟩

/-- C3: for every u32 value n outside [0,7], the boundary lookups return the
fallback texts "unknown" and "Unknown error code"; and for every u32 value n
the returned texts are non-empty (the functions are total: no failure path). -/
theorem C3_boundary_fallback_nonempty (n : Nat) (h : n < 2 ^ 32) :
    (¬ n ≤ 7 →
      kreuzberg_error_code_name n = "unknown" ∧
      kreuzberg_error_code_description n = "Unknown error code") ∧
    kreuzberg_error_code_name n ≠ "" ∧
    kreuzberg_error_code_description n ≠ "" := by
  by_cases h7 : n ≤ 7
  · refine ⟨fun hc => absurd h7 hc, ?_⟩
    interval_cases n <;> exact ⟨by decide, by decide⟩
  · obtain ⟨m, rfl⟩ : ∃ m, n = m + 8 := ⟨n - 8, by omega⟩
    have hn : kreuzberg_error_code_name (m + 8) = "unknown" := by
      simp [kreuzberg_error_code_name, from_code_ge8]
    have hd : kreuzberg_error_code_description (m + 8) = "Unknown error code" := by
      simp [kreuzberg_error_code_description, from_code_ge8]
    refine ⟨fun _ => ⟨hn, hd⟩, ?_, ?_⟩
    · rw [hn]; decide
    · rw [hd]; decide

/-- Witness for C3 at n = 99. -/
theorem C3_witness :
    99 < 2 ^ 32 ∧
    ((¬ 99 ≤ 7 →
        kreuzberg_error_code_name 99 = "unknown" ∧
        kreuzberg_error_code_description 99 = "Unknown error code") ∧
      kreuzberg_error_code_name 99 ≠ "" ∧
      kreuzberg_error_code_description 99 ≠ "") :=
  ⟨by norm_num, C3_boundary_fallback_nonempty 99 (by norm_num)⟩

/-- C4 (code-bug evidence): the texts whose bytes the returned pointers
address are plain Rust string literals containing no NUL byte at all, so the
pointed-to text carries no NUL terminator, contradicting the claim (and the
function's own doc and SAFETY comments) that it is a null-terminated C
string. Shown at the failing input 0 and at an invalid input. -/
theorem C4_pointee_text_not_nul_terminated :
    endsWithNul (kreuzberg_error_code_name 0) = false ∧
    containsNul (kreuzberg_error_code_name 0) = false ∧
    endsWithNul (kreuzberg_error_code_description 0) = false ∧
    containsNul (kreuzberg_error_code_description 0) = false ∧
    endsWithNul (kreuzberg_error_code_name 4294967295) = false ∧
    endsWithNul (kreuzberg_error_code_description 4294967295) = false := by
  decide

/-- C5: `ErrorCode` is closed with exactly the 8 listed variants, their
discriminants are exactly 0..7 in order, and each FFI getter returns its
variant's value. -/
theorem C5_closed_enum_and_getters :
    (∀ e : ErrorCode, e ∈ allVariants) ∧
    allVariants.Nodup ∧
    allVariants.length = 8 ∧
    allVariants.map ErrorCode.toU32 = [0, 1, 2, 3, 4, 5, 6, 7] ∧
    kreuzberg_error_code_validation = 0 ∧
    kreuzberg_error_code_parsing = 1 ∧
    kreuzberg_error_code_ocr = 2 ∧
    kreuzberg_error_code_missing_dependency = 3 ∧
    kreuzberg_error_code_io = 4 ∧
    kreuzberg_error_code_plugin = 5 ∧
    kreuzberg_error_code_unsupported_format = 6 ∧
    kreuzberg_error_code_internal = 7 := by
  decide

/-- C6: every variant's name is non-empty with no uppercase character, every
description is non-empty, names and descriptions are each pairwise distinct
across the 8 variants, and `Ocr` has name "ocr" and description
"OCR processing error". -/
theorem C6_names_descriptions_wellformed :
    (∀ e : ErrorCode,
      e.name ≠ "" ∧
      e.description ≠ "" ∧
      (e.name.data.all fun c => !c.isUpper) = true) ∧
    (allVariants.map ErrorCode.name).Nodup ∧
    (allVariants.map ErrorCode.description).Nodup ∧
    (∀ e : ErrorCode, e ∈ allVariants) ∧
    ErrorCode.Ocr.name = "ocr" ∧
    ErrorCode.Ocr.description = "OCR processing error" := by
  decide

/-- C7: `kreuzberg_error_code_count()` returns 8, which is exactly the number
of u32 values n with `is_valid(n)`, and exactly the number of variants. -/
theorem C7_count_matches_valid_codes :
    kreuzberg_error_code_count = 8 ∧
    ((Finset.range (2 ^ 32)).filter (fun n => ErrorCode.is_valid n = true)).card = 8 ∧
    Fintype.card ErrorCode = 8 := by
  refine ⟨rfl, ?_, by decide⟩
  have hfilter :
      (Finset.range (2 ^ 32)).filter (fun n => ErrorCode.is_valid n = true) =
        Finset.range 8 := by
    ext n
    simp only [Finset.mem_filter, Finset.mem_range, ErrorCode.is_valid,
      decide_eq_true_eq]
    omega
  rw [hfilter, Finset.card_range]

/-- C8: for every variant e, `from_code(e as u32)` returns `Some(e)`: the
variant-to-integer-to-variant round-trip is the identity. -/
theorem C8_variant_roundtrip :
    ∀ e : ErrorCode, ErrorCode.from_code e.toU32 = some e := by
  decide

/-- C9: for every n in [0,7], the boundary lookups agree with the typed
accessors: `kreuzberg_error_code_name(n)` is `from_code(n).unwrap().name()`
and `kreuzberg_error_code_description(n)` is
`from_code(n).unwrap().description()`. -/
theorem C9_boundary_agrees_with_typed (n : Nat) (h : n ≤ 7) :
    ∃ e : ErrorCode,
      ErrorCode.from_code n = some e ∧
      kreuzberg_error_code_name n = e.name ∧
      kreuzberg_error_code_description n = e.description := by
  interval_cases n <;> exact ⟨_, rfl, rfl, rfl⟩

/-- Witness for C9 at n = 2. -/
theorem C9_witness :
    2 ≤ 7 ∧
    ∃ e : ErrorCode,
      ErrorCode.from_code 2 = some e ∧
      kreuzberg_error_code_name 2 = e.name ∧
      kreuzberg_error_code_description 2 = e.description :=
  ⟨by decide, C9_boundary_agrees_with_typed 2 (by decide)⟩

/-- C10: for every u32 value n, `from_code(n)` returns `Some` exactly when
`is_valid(n)` is true: the optional conversion and the boolean predicate
agree on all inputs. -/
theorem C10_from_code_isSome_iff_is_valid (n : Nat) (h : n < 2 ^ 32) :
    (ErrorCode.from_code n).isSome = ErrorCode.is_valid n := by
  by_cases h7 : n ≤ 7
  · interval_cases n <;> decide
  · obtain ⟨m, rfl⟩ : ∃ m, n = m + 8 := ⟨n - 8, by omega⟩
    rw [from_code_ge8]
    simp only [Option.isSome_none, ErrorCode.is_valid]
    symm
    simp only [decide_eq_false_iff_not]
    omega

/-- Witness for C10 at n = u32::MAX = 4294967295. -/
theorem C10_witness :
    4294967295 < 2 ^ 32 ∧
    (ErrorCode.from_code 4294967295).isSome = ErrorCode.is_valid 4294967295 :=
  ⟨by norm_num, C10_from_code_isSome_iff_is_valid 4294967295 (by norm_num)⟩

end Kreuzberg
